import Mathlib

/-!
# Verification of the hotel dynamic-pricing engine

A shallow embedding, over `ℚ`, of the pricing/analytics logic of the mock
API service (`generatePricingData`, `generateRevenueAnalytics`,
`getPricingRecommendations`, `getContributionMarginAnalytics`).

JavaScript numbers are modelled as rationals.  The only operations in the
embedded code that can produce a non-finite JavaScript number (`NaN` or
`±Infinity`) are divisions; a division is therefore modelled as
`Option ℚ` (`jsDiv`), with `none` standing for a non-finite result, and
operations downstream of such a division propagate the `none`.

The source draws randomness from ambient `Math.random()`.  Following the
design note that randomness must be injectable, every `Math.random()` draw
is a parameter here (a rational in `[0,1)`); the expressions combining the
draws (`0.2 + r * 0.7`, `r < 0.1`, `-0.1 + r * 0.25`, `0.8 + r * 0.4`,
`0.4 + r * 0.5`, `0.9 + r * 0.3`) are embedded verbatim from the source.

Dates are modelled as integer day numbers (days since 1970-01-01, which
was a Thursday); `Date.setDate(getDate() + i)` is day-number addition,
`Date.getDay()` is `(d + 4) mod 7`, and the calendar computations used by
month grouping (`getFullYear`/`getMonth`) are the standard civil-calendar
conversions.
-/

namespace Hotel

/-- JavaScript `Math.round`: round half toward positive infinity. -/
def jsRound (q : ℚ) : ℤ := ⌊q + 1/2⌋

/-- `Math.round(q * 100) / 100` — round to 2 decimals. -/
def round2 (q : ℚ) : ℚ := (jsRound (q * 100) : ℚ) / 100

/-- `Math.round(q * 10) / 10` — round to 1 decimal. -/
def round1 (q : ℚ) : ℚ := (jsRound (q * 10) : ℚ) / 10

/-- `Math.round(q * 10000) / 10000` — round to 4 decimals. -/
def round4 (q : ℚ) : ℚ := (jsRound (q * 10000) : ℚ) / 10000

/-- JavaScript division, tracking finiteness: dividing by `0` yields a
non-finite number (`NaN` or `±Infinity`), modelled as `none`. -/
def jsDiv (x y : ℚ) : Option ℚ := if y = 0 then none else some (x / y)

/-- A sellable room type (the numeric and identifying fields of the
`roomTypes` records; UI-only fields such as `amenities` are omitted). -/
structure RoomType where
  id : ℕ
  hotel_id : ℕ
  name : String
  base_price : ℚ
  variable_cost : ℚ
  inventory_count : ℕ
  max_occupancy : ℕ
  deriving Repr, DecidableEq

/-- The mock data for room types. -/
def roomTypes : List RoomType :=
  [ { id := 1, hotel_id := 1, name := "Standard Room", base_price := 199,
      variable_cost := 45, inventory_count := 40, max_occupancy := 2 },
    { id := 2, hotel_id := 1, name := "Deluxe Room", base_price := 299,
      variable_cost := 65, inventory_count := 30, max_occupancy := 2 },
    { id := 3, hotel_id := 1, name := "Executive Suite", base_price := 499,
      variable_cost := 95, inventory_count := 15, max_occupancy := 3 },
    { id := 4, hotel_id := 2, name := "Standard Room", base_price := 149,
      variable_cost := 35, inventory_count := 50, max_occupancy := 2 },
    { id := 5, hotel_id := 2, name := "Deluxe Room", base_price := 229,
      variable_cost := 55, inventory_count := 35, max_occupancy := 2 },
    { id := 6, hotel_id := 3, name := "Standard Room", base_price := 169,
      variable_cost := 40, inventory_count := 45, max_occupancy := 2 },
    { id := 7, hotel_id := 3, name := "Executive Room", base_price := 249,
      variable_cost := 60, inventory_count := 30, max_occupancy := 2 } ]

/-- The price-multiplier tiering of `generatePricingData`:

    if (demand <= 0.3) priceMultiplier = 0.6 + (demand / 0.3) * 0.4;
    else if (demand >= 0.7) priceMultiplier = 1.0 + ((demand - 0.7) / 0.3) * 1.0;
    else priceMultiplier = 1.0;
-/
def priceMultiplier (demand : ℚ) : ℚ :=
  if demand ≤ 3/10 then 6/10 + (demand / (3/10)) * (4/10)
  else if demand ≥ 7/10 then 1 + ((demand - 7/10) / (3/10)) * 1
  else 1

/-- The 3-piece linear function exactly as the specification words it:
`0.6 + (demandProbability/0.30)*0.4` when `demandProbability <= 0.30`,
`1.0 + ((demandProbability - 0.70)/0.30)*1.0` when
`demandProbability >= 0.70`, and `1.0` otherwise. -/
def priceMultiplierSpec (demandProbability : ℚ) : ℚ :=
  if demandProbability ≤ 30/100 then
    6/10 + (demandProbability / (30/100)) * (4/10)
  else if demandProbability ≥ 70/100 then
    1 + ((demandProbability - 70/100) / (30/100)) * 1
  else 1

/-- One priced (room type, date) record, as pushed by the loop body of
`generatePricingData`.  `contribution_margin_percentage` is `Option ℚ`
because it divides by `final_price` (see `jsDiv`). -/
structure PricedDay where
  date : ℤ
  room_type_id : ℕ
  room_type_name : String
  base_price : ℚ
  variable_cost : ℚ
  demand_probability : ℚ
  price_multiplier : ℚ
  suggested_price : ℚ
  final_price : ℚ
  is_override : Bool
  override_notes : Option String
  contribution_margin : ℚ
  contribution_margin_percentage : Option ℚ
  expected_occupancy : ℚ
  expected_bookings : ℚ
  expected_revenue : ℚ
  expected_contribution : ℚ
  deriving Repr, DecidableEq

/-- The body of one iteration of the loop in `generatePricingData`
(lines computing the multiplier, prices, override, occupancy, margins,
bookings, revenue and the record pushed onto `pricingData`), i.e. the
specification's `priceDay`, with the random draws replaced by explicit
parameters: `isOverride` embeds `Math.random() < 0.1`, `adjustment`
embeds `-0.1 + Math.random() * 0.25`, and `eff` embeds
`0.8 + Math.random() * 0.4`. -/
def priceDay (roomType : RoomType) (date : ℤ) (demand : ℚ)
    (isOverride : Bool) (adjustment : ℚ) (eff : ℚ) : PricedDay :=
  let priceMult := priceMultiplier demand
  let suggestedPrice := round2 (roomType.base_price * priceMult)
  let finalPrice :=
    if isOverride then round2 (suggestedPrice * (1 + adjustment))
    else suggestedPrice
  let overrideNotes : Option String :=
    if isOverride then some "Manual adjustment for market conditions"
    else none
  let occupancy := min (95/100) (max (1/10) (demand * eff))
  let contributionMargin := finalPrice - roomType.variable_cost
  let contributionMarginPercentage :=
    (jsDiv contributionMargin finalPrice).map (fun r => r * 100)
  let expectedBookings := round1 (occupancy * roomType.inventory_count)
  let expectedRevenue := expectedBookings * finalPrice
  let expectedContribution := expectedBookings * contributionMargin
  { date := date
    room_type_id := roomType.id
    room_type_name := roomType.name
    base_price := roomType.base_price
    variable_cost := roomType.variable_cost
    demand_probability := round2 demand
    price_multiplier := round2 priceMult
    suggested_price := suggestedPrice
    final_price := finalPrice
    is_override := isOverride
    override_notes := overrideNotes
    contribution_margin := round2 contributionMargin
    contribution_margin_percentage := contributionMarginPercentage.map round2
    expected_occupancy := round2 occupancy
    expected_bookings := expectedBookings
    expected_revenue := round2 expectedRevenue
    expected_contribution := round2 expectedContribution }

/-- The four `Math.random()` draws made for one day of
`generatePricingData` (demand, override roll, override adjustment,
occupancy efficiency), each in `[0,1)`. -/
structure DayRand where
  demandR : ℚ
  overrideR : ℚ
  adjR : ℚ
  effR : ℚ
  deriving Repr, DecidableEq

/-- `generatePricingData(roomTypeId, startDate)`: looks the room type up
in `roomTypes` (returning `[]` when absent) and prices 30 consecutive
days starting at `startDate`.  `rand i` supplies day `i`'s four random
draws. -/
def generatePricingData (roomTypeId : ℕ) (startDate : ℤ)
    (rand : ℕ → DayRand) : List PricedDay :=
  match roomTypes.find? (fun rt => rt.id = roomTypeId) with
  | none => []
  | some roomType =>
      (List.range 30).map (fun i =>
        let r := rand i
        let demand := 2/10 + r.demandR * (7/10)
        priceDay roomType (startDate + i) demand
          (decide (r.overrideR < 1/10))
          (-(1/10) + r.adjR * (25/100))
          (8/10 + r.effR * (4/10)))

/-! ## Dates

Dates are integer day numbers: days since 1970-01-01 (a Thursday).
`Date.setDate(d.getDate() + i)` is `d + i`; `toISOString().split('T')[0]`
identifies two dates exactly when their day numbers agree, so string
comparison of ISO dates is day-number equality. -/

/-- `Date.getDay()`: day of the week, `0` = Sunday … `6` = Saturday.
Day number `0` (1970-01-01) was a Thursday, i.e. `getDay 0 = 4`. -/
def getDay (d : ℤ) : ℤ := (d + 4) % 7

/-- The week-bucket computation of `generateRevenueAnalytics`:

    const day = groupDate.getDay();
    const diff = groupDate.getDate() - day + (day === 0 ? -6 : 1);
    groupDate = new Date(groupDate.setDate(diff));

`setDate(diff)` moves the date by `diff - getDate()` days, so the group
date is `d - day + (day = 0 ? -6 : 1)`: the Monday of `d`'s week. -/
def mondayOf (d : ℤ) : ℤ :=
  let day := getDay d
  d - day + (if day = 0 then -6 else 1)

/-- Gregorian-calendar conversion from a day number to `(year, month, day)`
(the standard civil-from-days algorithm; `Int` division is Euclidean, which
on the non-negative intermediate values below is ordinary division). -/
def civilFromDays (z : ℤ) : ℤ × ℤ × ℤ :=
  let z' := z + 719468
  let era := z' / 146097
  let doe := z' - era * 146097
  let yoe := (doe - doe / 1460 + doe / 36524 - doe / 146096) / 365
  let y := yoe + era * 400
  let doy := doe - (365 * yoe + yoe / 4 - yoe / 100)
  let mp := (5 * doy + 2) / 153
  let d := doy - (153 * mp + 2) / 5 + 1
  let m := if mp < 10 then mp + 3 else mp - 9
  (if m ≤ 2 then y + 1 else y, m, d)

/-- Gregorian-calendar conversion from `(year, month, day)` to a day
number (the standard days-from-civil algorithm). -/
def daysFromCivil (y m d : ℤ) : ℤ :=
  let y' := if m ≤ 2 then y - 1 else y
  let era := y' / 400
  let yoe := y' - era * 400
  let doy := (153 * (if m > 2 then m - 3 else m + 9) + 2) / 5 + d - 1
  let doe := yoe * 365 + yoe / 4 - yoe / 100 + doy
  era * 146097 + doe - 719468

/-- The month-bucket computation of `generateRevenueAnalytics`:
`new Date(getFullYear(), getMonth(), 1)` — the first day of the date's
calendar month. -/
def monthStart (d : ℤ) : ℤ :=
  let c := civilFromDays d
  daysFromCivil c.1 c.2.1 1

/-! ## Revenue analytics -/

/-- The `groupBy` argument of the analytics functions. -/
inductive GroupBy where
  | day
  | week
  | month
  deriving Repr, DecidableEq

/-- The two `Math.random()` draws made per room type per analytics day
(occupancy, price factor), each in `[0,1)`. -/
structure DayRtRand where
  occR : ℚ
  priceR : ℚ
  deriving Repr, DecidableEq

/-- One entry of `roomTypeBreakdown` in `generateRevenueAnalytics`. -/
structure RoomTypeDayStats where
  room_type_id : ℕ
  room_type_name : String
  revenue : ℚ
  rooms : ℕ
  occupied : ℤ
  occupancy_rate : ℚ
  deriving Repr, DecidableEq

/-- One record pushed onto `analytics` by `generateRevenueAnalytics`.
`occupancy_rate` is `Option ℚ` because it divides by `total_rooms`
(see `jsDiv`). -/
structure RevenueAnalyticsItem where
  date : ℤ
  total_revenue : ℚ
  total_rooms : ℕ
  total_occupied : ℤ
  occupancy_rate : Option ℚ
  room_types : List RoomTypeDayStats
  deriving Repr, DecidableEq

/-- The per-date body of `generateRevenueAnalytics`: the `forEach` over
the hotel's room types accumulating `totalRevenue`, `totalRooms`,
`totalOccupied` and the breakdown (keyed by the room type's distinct id
in the source, hence in iteration order), and the record then pushed.
`r j` supplies the two random draws for the `j`-th room type. -/
def revenueStep (r : ℕ → DayRtRand)
    (acc : ℚ × ℕ × ℤ × List RoomTypeDayStats) (p : ℕ × RoomType) :
    ℚ × ℕ × ℤ × List RoomTypeDayStats :=
  let rr := r p.1
  let roomType := p.2
  let occupancy := 4/10 + rr.occR * (5/10)
  let occupiedRooms := jsRound ((roomType.inventory_count : ℚ) * occupancy)
  let avgPrice := roomType.base_price * (9/10 + rr.priceR * (3/10))
  let revenue := (occupiedRooms : ℚ) * avgPrice
  (acc.1 + revenue, acc.2.1 + roomType.inventory_count,
   acc.2.2.1 + occupiedRooms,
   acc.2.2.2 ++ [{ room_type_id := roomType.id,
                   room_type_name := roomType.name,
                   revenue := round2 revenue,
                   rooms := roomType.inventory_count,
                   occupied := occupiedRooms,
                   occupancy_rate := round2 occupancy }])

def revenueAnalyticsItem (hotelRoomTypes : List RoomType) (date : ℤ)
    (r : ℕ → DayRtRand) : RevenueAnalyticsItem :=
  let acc := hotelRoomTypes.enum.foldl (revenueStep r) (0, 0, 0, [])
  { date := date
    total_revenue := round2 acc.1
    total_rooms := acc.2.1
    total_occupied := acc.2.2.1
    occupancy_rate := (jsDiv (acc.2.2.1 : ℚ) (acc.2.1 : ℚ)).map round4
    room_types := acc.2.2.2 }

/-- The main loop of `generateRevenueAnalytics`: for each of `days`
dates, compute the group date per `groupBy`; if an entry with that group
date already exists, `continue` (the "Update existing entry" branch
updates nothing), else push a fresh record for the group date.
`r i` supplies day `i`'s random draws. -/
def revenueLoopStep (hotelRoomTypes : List RoomType) (startDate : ℤ)
    (groupBy : GroupBy) (r : ℕ → ℕ → DayRtRand)
    (analytics : List RevenueAnalyticsItem) (i : ℕ) :
    List RevenueAnalyticsItem :=
  let date := startDate + (i : ℤ)
  let groupDate :=
    match groupBy with
    | .day => date
    | .week => mondayOf date
    | .month => monthStart date
  if (analytics.find? (fun a => a.date = groupDate)).isSome then
    analytics
  else
    analytics ++ [revenueAnalyticsItem hotelRoomTypes groupDate (r i)]

def revenueAnalyticsLoop (hotelRoomTypes : List RoomType) (startDate : ℤ)
    (days : ℕ) (groupBy : GroupBy) (r : ℕ → ℕ → DayRtRand) :
    List RevenueAnalyticsItem :=
  (List.range days).foldl (revenueLoopStep hotelRoomTypes startDate groupBy r) []

/-- The result of `generateRevenueAnalytics`: either the early return
`{ analytics: [] }` (when the hotel has no room types) or the full
record.  `generated_at`-style wall-clock fields are omitted. -/
inductive RevenueAnalytics where
  | emptyResult
  | result (hotel_id : ℕ) (start_date : ℤ) (end_date : ℤ)
      (group_by : GroupBy) (analytics : List RevenueAnalyticsItem)
  deriving Repr, DecidableEq

/-- The `analytics` field of either form of result. -/
def RevenueAnalytics.analytics : RevenueAnalytics → List RevenueAnalyticsItem
  | .emptyResult => []
  | .result _ _ _ _ a => a

/-- `generateRevenueAnalytics(hotelId, startDate, days, groupBy)`.
The final `sort` by date is the source's
`analytics.sort((a, b) => new Date(a.date) - new Date(b.date))`. -/
def generateRevenueAnalytics (hotelId : ℕ) (startDate : ℤ) (days : ℕ)
    (groupBy : GroupBy) (r : ℕ → ℕ → DayRtRand) : RevenueAnalytics :=
  let hotelRoomTypes := roomTypes.filter (fun rt => rt.hotel_id = hotelId)
  if hotelRoomTypes.isEmpty then .emptyResult
  else
    .result hotelId startDate (startDate + days - 1) groupBy
      ((revenueAnalyticsLoop hotelRoomTypes startDate days groupBy r).mergeSort
        (fun a b => a.date ≤ b.date))

/-! ## Contribution-margin analytics -/

/-- One entry of `roomTypesWithContribution` in
`getContributionMarginAnalytics` (the spread of the breakdown entry plus
the contribution fields).  `contribution_margin` divides by the entry's
`revenue` (see `jsDiv`). -/
structure ContributionRoomTypeStats where
  room_type_id : ℕ
  room_type_name : String
  revenue : ℚ
  rooms : ℕ
  occupied : ℤ
  occupancy_rate : ℚ
  variable_cost : ℚ
  contribution : ℚ
  contribution_margin : Option ℚ
  deriving Repr, DecidableEq

/-- One analytics record of `getContributionMarginAnalytics`.
`contribution_margin` divides `totalContribution` by `total_revenue`,
with no zero-revenue guard (see `jsDiv`). -/
structure ContributionItem where
  date : ℤ
  total_revenue : ℚ
  total_variable_cost : ℚ
  total_contribution : ℚ
  contribution_margin : Option ℚ
  total_rooms : ℕ
  total_occupied : ℤ
  room_types : List ContributionRoomTypeStats
  deriving Repr, DecidableEq

/-- The per-item map of `getContributionMarginAnalytics`: the fold over
`item.room_types` accumulating raw `totalVariableCost` and
`totalContribution`, then the returned record.  The source looks each
entry's room type up with `hotelRoomTypes.find(...)` and dereferences the
result unchecked; a missing room type is a thrown `TypeError`, modelled
as `none`. -/
def contributionStep (hotelRoomTypes : List RoomType)
    (acc : Option (ℚ × ℚ × List ContributionRoomTypeStats))
    (rt : RoomTypeDayStats) : Option (ℚ × ℚ × List ContributionRoomTypeStats) :=
  acc.bind (fun a =>
    (hotelRoomTypes.find? (fun r => r.id = rt.room_type_id)).map
      (fun roomType =>
        let variableCost := (rt.occupied : ℚ) * roomType.variable_cost
        let contribution := rt.revenue - variableCost
        (a.1 + variableCost, a.2.1 + contribution,
         a.2.2 ++ [{ room_type_id := rt.room_type_id,
                     room_type_name := rt.room_type_name,
                     revenue := rt.revenue,
                     rooms := rt.rooms,
                     occupied := rt.occupied,
                     occupancy_rate := rt.occupancy_rate,
                     variable_cost := round2 variableCost,
                     contribution := round2 contribution,
                     contribution_margin :=
                       (jsDiv contribution rt.revenue).map round4 }])))

def contributionItem (hotelRoomTypes : List RoomType)
    (item : RevenueAnalyticsItem) : Option ContributionItem :=
  (item.room_types.foldl (contributionStep hotelRoomTypes)
    (some ((0 : ℚ), (0 : ℚ), ([] : List ContributionRoomTypeStats)))).map
    (fun a =>
      { date := item.date
        total_revenue := item.total_revenue
        total_variable_cost := round2 a.1
        total_contribution := round2 a.2.1
        contribution_margin := (jsDiv a.2.1 item.total_revenue).map round4
        total_rooms := item.total_rooms
        total_occupied := item.total_occupied
        room_types := a.2.2 })

/-- The result of `getContributionMarginAnalytics` (same shape as
`RevenueAnalytics`, with transformed items). -/
inductive ContributionAnalytics where
  | emptyResult
  | result (hotel_id : ℕ) (start_date : ℤ) (end_date : ℤ)
      (group_by : GroupBy) (analytics : List ContributionItem)
  deriving Repr, DecidableEq

/-- `getContributionMarginAnalytics`: reuses `generateRevenueAnalytics`
and maps `contributionItem` over its records; `none` models the
`TypeError` thrown on a breakdown entry whose room type is missing. -/
def getContributionMarginAnalytics (hotelId : ℕ) (startDate : ℤ)
    (days : ℕ) (groupBy : GroupBy) (r : ℕ → ℕ → DayRtRand) :
    Option ContributionAnalytics :=
  let hotelRoomTypes := roomTypes.filter (fun rt => rt.hotel_id = hotelId)
  match generateRevenueAnalytics hotelId startDate days groupBy r with
  | .emptyResult => some .emptyResult
  | .result h s e g items =>
      (items.mapM (contributionItem hotelRoomTypes)).map
        (ContributionAnalytics.result h s e g)

/-! ## Pricing recommendations -/

/-- One value of the `recommendations` object of
`getPricingRecommendations`. -/
structure Recommendation where
  room_type_id : ℕ
  room_type_name : String
  base_price : ℚ
  variable_cost : ℚ
  inventory_count : ℕ
  prices : List PricedDay
  deriving Repr, DecidableEq

/-- The result of `getPricingRecommendations`; `recommendations` is an
object keyed by the (distinct) room-type ids, modelled as a list in
insertion order; the wall-clock `generated_at` field is omitted. -/
structure PricingRecommendations where
  hotel_id : ℕ
  start_date : ℤ
  days : ℕ
  recommendations : List Recommendation
  deriving Repr, DecidableEq

/-- `getPricingRecommendations(hotelId, startDate, days, roomTypeId)`:
filters the room types, throws
`"No room types found for the specified criteria"` when none match, and
otherwise builds one recommendation per room type from
`generatePricingData(roomType.id, startDate)` — note `days` is passed on
to the response but not to `generatePricingData`.  `rand rt.id` supplies
the pricing randomness for room type `rt.id`. -/
def getPricingRecommendations (hotelId : ℕ) (startDate : ℤ) (days : ℕ)
    (roomTypeId : Option ℕ) (rand : ℕ → ℕ → DayRand) :
    Except String PricingRecommendations :=
  let hotelRoomTypes : List RoomType :=
    match roomTypeId with
    | some rid => roomTypes.filter (fun rt => rt.id = rid ∧ rt.hotel_id = hotelId)
    | none => roomTypes.filter (fun rt => rt.hotel_id = hotelId)
  if hotelRoomTypes.isEmpty then
    .error "No room types found for the specified criteria"
  else
    .ok { hotel_id := hotelId
          start_date := startDate
          days := days
          recommendations := hotelRoomTypes.map (fun rt =>
            { room_type_id := rt.id
              room_type_name := rt.name
              base_price := rt.base_price
              variable_cost := rt.variable_cost
              inventory_count := rt.inventory_count
              prices := generatePricingData rt.id startDate (rand rt.id) }) }

/-! ## Input validation (specified engine boundary) -/

/-- The specification's error taxonomy for the pricing engine. -/
inductive PricingError where
  | InvalidInput
  | EmptyInput
  | RoomTypeNotFound
  deriving Repr, DecidableEq

/-- Modelled from the spec: the engine's `priceDay` entry point takes
`demandProbability` in `[0,1]` and "fails with `InvalidInput` if outside
range", the input being "rejected before computation".  This validation
step is absent from the mock source, whose demand values are generated
internally; the computation on a valid input is `priceDay`, embedded
from the source. -/
def priceDayChecked (roomType : RoomType) (date : ℤ) (demandProbability : ℚ)
    (isOverride : Bool) (adjustment : ℚ) (eff : ℚ) :
    Except PricingError PricedDay :=
  if demandProbability < 0 ∨ 1 < demandProbability then
    .error .InvalidInput
  else
    .ok (priceDay roomType date demandProbability isOverride adjustment eff)

/-- The first mock room type (used as a concrete input in witnesses). -/
def standardRoom : RoomType :=
  { id := 1, hotel_id := 1, name := "Standard Room", base_price := 199,
    variable_cost := 45, inventory_count := 40, max_occupancy := 2 }

/-! ## Arithmetic lemmas about the rounding helpers -/

theorem jsRound_mono {x y : ℚ} (h : x ≤ y) : jsRound x ≤ jsRound y :=
  Int.floor_le_floor (by linarith)

theorem round2_mono {x y : ℚ} (h : x ≤ y) : round2 x ≤ round2 y := by
  unfold round2
  have hr : jsRound (x * 100) ≤ jsRound (y * 100) :=
    jsRound_mono (by linarith)
  have : ((jsRound (x * 100) : ℚ)) ≤ ((jsRound (y * 100) : ℚ)) := by
    exact_mod_cast hr
  linarith

theorem round2_le (x : ℚ) : round2 x ≤ x + 1/200 := by
  unfold round2 jsRound
  have h := Int.floor_le (x * 100 + 1/2)
  rw [div_le_iff₀ (by norm_num : (0:ℚ) < 100)]
  linarith

theorem lt_round2 (x : ℚ) : x - 1/200 < round2 x := by
  unfold round2 jsRound
  have h := Int.lt_floor_add_one (x * 100 + 1/2)
  rw [lt_div_iff₀ (by norm_num : (0:ℚ) < 100)]
  linarith

theorem round2_intCast_div (z : ℤ) : round2 ((z : ℚ) / 100) = (z : ℚ) / 100 := by
  unfold round2 jsRound
  rw [div_mul_cancel₀ _ (by norm_num : (100:ℚ) ≠ 0), add_comm,
    Int.floor_add_int]
  norm_num

theorem round2_isCents (x : ℚ) : ∃ z : ℤ, round2 x = (z : ℚ) / 100 :=
  ⟨jsRound (x * 100), rfl⟩

theorem round2_ge_cent {x : ℚ} (h : 1/200 ≤ x) : 1/100 ≤ round2 x := by
  have h1 : jsRound (1/2 : ℚ) ≤ jsRound (x * 100) := jsRound_mono (by linarith)
  have h2 : jsRound (1/2 : ℚ) = 1 := by norm_num [jsRound]
  unfold round2
  rw [le_div_iff₀ (by norm_num : (0:ℚ) < 100)]
  have : (1 : ℚ) ≤ (jsRound (x * 100) : ℚ) := by exact_mod_cast h2 ▸ h1
  linarith

/-! ## Properties of the price multiplier -/

theorem priceMultiplier_eq_spec (d : ℚ) : priceMultiplier d = priceMultiplierSpec d := by
  unfold priceMultiplier priceMultiplierSpec
  norm_num

theorem priceMultiplier_mono {x y : ℚ} (hxy : x ≤ y) :
    priceMultiplier x ≤ priceMultiplier y := by
  unfold priceMultiplier
  split_ifs <;> linarith

theorem priceMultiplier_bounds {d : ℚ} (h0 : 0 ≤ d) (h1 : d ≤ 1) :
    6/10 ≤ priceMultiplier d ∧ priceMultiplier d ≤ 2 := by
  unfold priceMultiplier
  split_ifs <;> constructor <;> linarith

/-- C1: for every `demandProbability` in `[0,1]` the multiplier computed
by `priceDay` equals the specification's 3-piece linear function, with
`price_multiplier(0) = 0.6`, `price_multiplier(0.30) = 1.0`,
`price_multiplier(0.70) = 1.0` and `price_multiplier(1.0) = 2.0`, so the
function is continuous at both tier boundaries. -/
theorem priceMultiplier_matches_spec (d : ℚ) (h0 : 0 ≤ d) (h1 : d ≤ 1) :
    priceMultiplier d = priceMultiplierSpec d ∧
    priceMultiplier 0 = 6/10 ∧
    priceMultiplier (30/100) = 1 ∧
    priceMultiplier (70/100) = 1 ∧
    priceMultiplier 1 = 2 ∧
    ∀ (rt : RoomType) (date : ℤ) (o : Bool) (a e : ℚ),
      (priceDay rt date d o a e).price_multiplier =
        round2 (priceMultiplierSpec d) := by
  refine ⟨priceMultiplier_eq_spec d, ?_, ?_, ?_, ?_, ?_⟩
  · norm_num [priceMultiplier]
  · norm_num [priceMultiplier]
  · norm_num [priceMultiplier]
  · norm_num [priceMultiplier]
  · intro rt date o a e
    simp only [priceDay, priceMultiplier_eq_spec]

/-- Witness for `priceMultiplier_matches_spec` at `demandProbability = 1/2`. -/
theorem priceMultiplier_matches_spec_witness :
    priceMultiplier (1/2) = priceMultiplierSpec (1/2) ∧
    priceMultiplier 0 = 6/10 ∧
    priceMultiplier (30/100) = 1 ∧
    priceMultiplier (70/100) = 1 ∧
    priceMultiplier 1 = 2 ∧
    ∀ (rt : RoomType) (date : ℤ) (o : Bool) (a e : ℚ),
      (priceDay rt date (1/2) o a e).price_multiplier =
        round2 (priceMultiplierSpec (1/2)) :=
  priceMultiplier_matches_spec (1/2) (by norm_num) (by norm_num)

/-- C2: the `expected_occupancy` field of every `PricedDay` produced by
`priceDay` lies in `[0.10, 0.95]`, for every demand probability and
every value of the randomized efficiency factor. -/
theorem expected_occupancy_in_bounds (rt : RoomType) (date : ℤ)
    (demand : ℚ) (o : Bool) (a eff : ℚ) :
    1/10 ≤ (priceDay rt date demand o a eff).expected_occupancy ∧
    (priceDay rt date demand o a eff).expected_occupancy ≤ 95/100 := by
  have hocc1 : (1/10 : ℚ) ≤ min (95/100) (max (1/10) (demand * eff)) :=
    le_min (by norm_num) (le_max_left _ _)
  have hocc2 : min (95/100 : ℚ) (max (1/10) (demand * eff)) ≤ 95/100 :=
    min_le_left _ _
  have hlo : (1/10 : ℚ) = round2 (1/10) := by norm_num [round2, jsRound]
  have hhi : (95/100 : ℚ) = round2 (95/100) := by norm_num [round2, jsRound]
  constructor
  · simp only [priceDay]
    have h := round2_mono hocc1
    rw [← hlo] at h
    exact h
  · simp only [priceDay]
    have h := round2_mono hocc2
    rw [← hhi] at h
    exact h

/-- C6: the validated engine boundary accepts exactly the demand
probabilities in `[0,1]` — on those it returns the full `priceDay`
computation, and it fails with `InvalidInput` exactly on inputs outside
the range, before any computation. -/
theorem priceDayChecked_invalid_iff (rt : RoomType) (date : ℤ) (d : ℚ)
    (o : Bool) (a e : ℚ) (h0 : 0 ≤ d) (h1 : d ≤ 1) :
    priceDayChecked rt date d o a e = .ok (priceDay rt date d o a e) ∧
    ∀ d' : ℚ, priceDayChecked rt date d' o a e = .error .InvalidInput ↔
      (d' < 0 ∨ 1 < d') := by
  constructor
  · unfold priceDayChecked
    rw [if_neg]
    push_neg
    exact ⟨h0, h1⟩
  · intro d'
    unfold priceDayChecked
    split_ifs with h
    · simp [h]
    · simp [h]

/-- Witness for `priceDayChecked_invalid_iff` at the first room type and
`demandProbability = 1/2`. -/
theorem priceDayChecked_invalid_iff_witness :
    priceDayChecked standardRoom 0 (1/2) false 0 1 =
      .ok (priceDay standardRoom 0 (1/2) false 0 1) ∧
    ∀ d' : ℚ, priceDayChecked standardRoom 0 d' false 0 1 = .error .InvalidInput ↔
      (d' < 0 ∨ 1 < d') :=
  priceDayChecked_invalid_iff _ 0 (1/2) false 0 1 (by norm_num) (by norm_num)

/-- C10: the price multiplier is monotone non-decreasing on `[0,1]` and
bounded in `[0.6, 2.0]`, so the suggested price lies between
`0.6 * base_price` and `2.0 * base_price` up to the 2-decimal rounding
(within half a cent). -/
theorem multiplier_monotone_bounded (rt : RoomType) (d₁ d₂ : ℚ)
    (h0 : 0 ≤ d₁) (h12 : d₁ ≤ d₂) (h1 : d₂ ≤ 1)
    (hbp : 0 ≤ rt.base_price) (date : ℤ) (o : Bool) (a e : ℚ) :
    priceMultiplier d₁ ≤ priceMultiplier d₂ ∧
    6/10 ≤ priceMultiplier d₁ ∧ priceMultiplier d₂ ≤ 2 ∧
    6/10 * rt.base_price - 1/200 ≤ (priceDay rt date d₁ o a e).suggested_price ∧
    (priceDay rt date d₁ o a e).suggested_price ≤ 2 * rt.base_price + 1/200 := by
  have hb1 := priceMultiplier_bounds h0 (le_trans h12 h1)
  have hb2 := priceMultiplier_bounds (le_trans h0 h12) h1
  have hsug : (priceDay rt date d₁ o a e).suggested_price =
      round2 (rt.base_price * priceMultiplier d₁) := by
    simp only [priceDay]
  refine ⟨priceMultiplier_mono h12, hb1.1, hb2.2, ?_, ?_⟩
  · rw [hsug]
    have hmul : 6/10 * rt.base_price ≤ rt.base_price * priceMultiplier d₁ := by
      nlinarith [hb1.1]
    have := lt_round2 (rt.base_price * priceMultiplier d₁)
    linarith
  · rw [hsug]
    have hmul : rt.base_price * priceMultiplier d₁ ≤ 2 * rt.base_price := by
      nlinarith [hb1.2]
    have := round2_le (rt.base_price * priceMultiplier d₁)
    linarith

/-- Witness for `multiplier_monotone_bounded` at the first room type,
`d₁ = 0.2` and `d₂ = 0.8`. -/
theorem multiplier_monotone_bounded_witness :
    priceMultiplier (2/10) ≤ priceMultiplier (8/10) ∧
    6/10 ≤ priceMultiplier (2/10) ∧ priceMultiplier (8/10) ≤ 2 ∧
    6/10 * (199 : ℚ) - 1/200 ≤
      (priceDay standardRoom 0 (2/10) false 0 1).suggested_price ∧
    (priceDay standardRoom 0 (2/10) false 0 1).suggested_price ≤
      2 * (199 : ℚ) + 1/200 :=
  multiplier_monotone_bounded _ (2/10) (8/10) (by norm_num) (by norm_num)
    (by norm_num) (by norm_num [standardRoom]) 0 false 0 1

/-! ## Contribution margin -/

theorem round2_sub_cents {x y : ℚ} (hx : ∃ z : ℤ, x = (z : ℚ) / 100)
    (hy : ∃ z : ℤ, y = (z : ℚ) / 100) : round2 (x - y) = x - y := by
  obtain ⟨zx, rfl⟩ := hx
  obtain ⟨zy, rfl⟩ := hy
  have h : (zx : ℚ) / 100 - (zy : ℚ) / 100 = ((zx - zy : ℤ) : ℚ) / 100 := by
    push_cast
    ring
  rw [h, round2_intCast_div, Int.cast_sub]

/-- Every room type of the mock data has a variable cost that is a whole
number of cents. -/
theorem roomTypes_variable_cost_cents :
    ∀ rt ∈ roomTypes, ∃ z : ℤ, rt.variable_cost = (z : ℚ) / 100 := by
  intro rt h
  simp only [roomTypes, List.mem_cons, List.not_mem_nil, or_false] at h
  rcases h with rfl | rfl | rfl | rfl | rfl | rfl | rfl
  exacts [⟨4500, by norm_num⟩, ⟨6500, by norm_num⟩, ⟨9500, by norm_num⟩,
    ⟨3500, by norm_num⟩, ⟨5500, by norm_num⟩, ⟨4000, by norm_num⟩,
    ⟨6000, by norm_num⟩]

theorem priceDay_margin_of_cents (rt : RoomType) (date : ℤ) (d : ℚ)
    (o : Bool) (a e : ℚ) (hvc : ∃ z : ℤ, rt.variable_cost = (z : ℚ) / 100) :
    (priceDay rt date d o a e).contribution_margin =
      (priceDay rt date d o a e).final_price -
        (priceDay rt date d o a e).variable_cost := by
  cases o <;>
    · simp only [priceDay, if_true, if_false, Bool.false_eq_true]
      exact round2_sub_cents (round2_isCents _) hvc

/-- C3: for every `PricedDay` produced by the pricing loop (with or
without an override), `contribution_margin` equals
`final_price - variable_cost` exactly. -/
theorem contribution_margin_exact (roomTypeId : ℕ) (startDate : ℤ)
    (rand : ℕ → DayRand) (pd : PricedDay)
    (hpd : pd ∈ generatePricingData roomTypeId startDate rand) :
    pd.contribution_margin = pd.final_price - pd.variable_cost := by
  unfold generatePricingData at hpd
  cases hfind : roomTypes.find? (fun rt => rt.id = roomTypeId) with
  | none =>
      rw [hfind] at hpd
      simp at hpd
  | some rt =>
      rw [hfind] at hpd
      simp only [List.mem_map, List.mem_range] at hpd
      obtain ⟨i, hi, rfl⟩ := hpd
      exact priceDay_margin_of_cents rt _ _ _ _ _
        (roomTypes_variable_cost_cents rt (List.mem_of_find?_eq_some hfind))

/-- Witness for `contribution_margin_exact`: the first record of
`generatePricingData(1, 0)` with all random draws `0`. -/
theorem contribution_margin_exact_witness :
    (priceDay standardRoom (0 + ((0 : ℕ) : ℤ)) (2/10 + 0 * (7/10))
        (decide ((0 : ℚ) < 1/10)) (-(1/10) + 0 * (25/100))
        (8/10 + 0 * (4/10))).contribution_margin =
      (priceDay standardRoom (0 + ((0 : ℕ) : ℤ)) (2/10 + 0 * (7/10))
        (decide ((0 : ℚ) < 1/10)) (-(1/10) + 0 * (25/100))
        (8/10 + 0 * (4/10))).final_price -
      (priceDay standardRoom (0 + ((0 : ℕ) : ℤ)) (2/10 + 0 * (7/10))
        (decide ((0 : ℚ) < 1/10)) (-(1/10) + 0 * (25/100))
        (8/10 + 0 * (4/10))).variable_cost :=
  contribution_margin_exact 1 0 (fun _ => ⟨0, 0, 0, 0⟩) _ (by
    unfold generatePricingData
    rw [show roomTypes.find? (fun rt => rt.id = 1) = some standardRoom from rfl]
    exact List.mem_map_of_mem _ (by simp))

/-! ## Structure of the analytics records -/

theorem mem_foldl_of_prop {α β : Type _} (f : List β → α → List β) (P : β → Prop)
    (hf : ∀ acc x b, b ∈ f acc x → b ∈ acc ∨ P b) :
    ∀ (l : List α) (acc : List β) (b : β), b ∈ l.foldl f acc → b ∈ acc ∨ P b := by
  intro l
  induction l with
  | nil => intro acc b h; exact Or.inl h
  | cons x xs ih =>
      intro acc b h
      rcases ih (f acc x) b h with h' | h'
      · exact hf acc x b h'
      · exact Or.inr h'

/-- Every record of the analytics loop is `revenueAnalyticsItem` at some
group date with some day's randomness. -/
theorem mem_revenueAnalyticsLoop {hrts : List RoomType} {startDate : ℤ}
    {days : ℕ} {groupBy : GroupBy} {r : ℕ → ℕ → DayRtRand}
    {b : RevenueAnalyticsItem}
    (hb : b ∈ revenueAnalyticsLoop hrts startDate days groupBy r) :
    ∃ i g, b = revenueAnalyticsItem hrts g (r i) := by
  unfold revenueAnalyticsLoop at hb
  have hf : ∀ (acc : List RevenueAnalyticsItem) (i : ℕ) (b' : RevenueAnalyticsItem),
      b' ∈ revenueLoopStep hrts startDate groupBy r acc i →
      b' ∈ acc ∨ ∃ i g, b' = revenueAnalyticsItem hrts g (r i) := by
    intro acc i b' hmem
    unfold revenueLoopStep at hmem
    dsimp only at hmem
    split at hmem
    · exact Or.inl hmem
    · rcases List.mem_append.mp hmem with h' | h'
      · exact Or.inl h'
      · simp only [List.mem_singleton] at h'
        exact Or.inr ⟨i, _, h'⟩
  rcases mem_foldl_of_prop _ (fun b => ∃ i g, b = revenueAnalyticsItem hrts g (r i))
      hf (List.range days) [] b hb with h | h
  · simp at h
  · exact h

theorem revenueStep_fst (r : ℕ → DayRtRand)
    (acc : ℚ × ℕ × ℤ × List RoomTypeDayStats) (p : ℕ × RoomType)
    (hinv : 2 ≤ p.2.inventory_count) (hbp : 1 ≤ p.2.base_price)
    (hocc : 0 ≤ (r p.1).occR) (hpr : 0 ≤ (r p.1).priceR) :
    acc.1 + 9/10 ≤ (revenueStep r acc p).1 := by
  unfold revenueStep
  dsimp only
  have hinvq : (2 : ℚ) ≤ (p.2.inventory_count : ℚ) := by exact_mod_cast hinv
  have hprod : (8/10 : ℚ) ≤
      (p.2.inventory_count : ℚ) * (4/10 + (r p.1).occR * (5/10)) := by
    nlinarith
  have hjs : (1 : ℤ) ≤
      jsRound ((p.2.inventory_count : ℚ) * (4/10 + (r p.1).occR * (5/10))) := by
    have h1 := jsRound_mono hprod
    have h2 : jsRound (8/10 : ℚ) = 1 := by norm_num [jsRound]
    omega
  have hjsq : (1 : ℚ) ≤
      (jsRound ((p.2.inventory_count : ℚ) * (4/10 + (r p.1).occR * (5/10))) : ℚ) := by
    exact_mod_cast hjs
  have havg : (9/10 : ℚ) ≤ p.2.base_price * (9/10 + (r p.1).priceR * (3/10)) := by
    nlinarith
  nlinarith

theorem revenueFold_totals (r : ℕ → DayRtRand)
    (hr : ∀ j, 0 ≤ (r j).occR ∧ 0 ≤ (r j).priceR) :
    ∀ (l : List (ℕ × RoomType)) (acc : ℚ × ℕ × ℤ × List RoomTypeDayStats),
      (∀ p ∈ l, 2 ≤ p.2.inventory_count ∧ 1 ≤ p.2.base_price) →
      acc.1 + 9/10 * l.length ≤ (l.foldl (revenueStep r) acc).1 ∧
      acc.2.1 + 2 * l.length ≤ (l.foldl (revenueStep r) acc).2.1 := by
  intro l
  induction l with
  | nil => intro acc _; simp
  | cons p ps ih =>
      intro acc h
      have hp := h p (by simp)
      have h1 := revenueStep_fst r acc p hp.1 hp.2 (hr p.1).1 (hr p.1).2
      have h2 : (revenueStep r acc p).2.1 = acc.2.1 + p.2.inventory_count := rfl
      obtain ⟨ih1, ih2⟩ := ih (revenueStep r acc p) (fun q hq => h q (by simp [hq]))
      constructor
      · simp only [List.foldl_cons, List.length_cons]
        push_cast
        linarith
      · simp only [List.foldl_cons, List.length_cons]
        omega

theorem revenueStep_ids (r : ℕ → DayRtRand)
    (acc : ℚ × ℕ × ℤ × List RoomTypeDayStats) (p : ℕ × RoomType) :
    ∀ s ∈ (revenueStep r acc p).2.2.2,
      s ∈ acc.2.2.2 ∨ s.room_type_id = p.2.id := by
  intro s hs
  unfold revenueStep at hs
  dsimp only at hs
  rcases List.mem_append.mp hs with h | h
  · exact Or.inl h
  · simp only [List.mem_singleton] at h
    subst h
    exact Or.inr rfl

theorem revenueFold_ids (r : ℕ → DayRtRand) (hrts : List RoomType) :
    ∀ (l : List (ℕ × RoomType)) (acc : ℚ × ℕ × ℤ × List RoomTypeDayStats),
      (∀ p ∈ l, p.2 ∈ hrts) →
      (∀ s ∈ acc.2.2.2, ∃ rt ∈ hrts, s.room_type_id = rt.id) →
      ∀ s ∈ (l.foldl (revenueStep r) acc).2.2.2,
        ∃ rt ∈ hrts, s.room_type_id = rt.id := by
  intro l
  induction l with
  | nil => intro acc _ hacc; exact hacc
  | cons p ps ih =>
      intro acc hl hacc
      refine ih (revenueStep r acc p) (fun q hq => hl q (by simp [hq])) ?_
      intro s hs
      rcases revenueStep_ids r acc p s hs with h | h
      · exact hacc s h
      · exact ⟨p.2, hl p (by simp), h⟩

/-- The totals and breakdown of one analytics record, for room types with
at least 2 rooms and a base price of at least 1 and in-range randomness. -/
theorem revenueAnalyticsItem_shape (hrts : List RoomType) (g : ℤ)
    (rr : ℕ → DayRtRand) (hne : hrts ≠ [])
    (hb : ∀ rt ∈ hrts, 2 ≤ rt.inventory_count ∧ 1 ≤ rt.base_price)
    (hr : ∀ j, 0 ≤ (rr j).occR ∧ 0 ≤ (rr j).priceR) :
    9/10 ≤ (revenueAnalyticsItem hrts g rr).total_revenue ∧
    0 < (revenueAnalyticsItem hrts g rr).total_rooms ∧
    (revenueAnalyticsItem hrts g rr).occupancy_rate.isSome ∧
    ∀ s ∈ (revenueAnalyticsItem hrts g rr).room_types,
      ∃ rt ∈ hrts, s.room_type_id = rt.id := by
  have henum : ∀ p ∈ hrts.enum, 2 ≤ p.2.inventory_count ∧ 1 ≤ p.2.base_price := by
    intro p hp
    rcases p with ⟨i, x⟩
    obtain ⟨hi, hx⟩ := List.mem_enum hp
    dsimp only
    rw [hx]
    exact hb _ (List.getElem_mem hi)
  have henum' : ∀ p ∈ hrts.enum, p.2 ∈ hrts := by
    intro p hp
    rcases p with ⟨i, x⟩
    obtain ⟨hi, hx⟩ := List.mem_enum hp
    dsimp only
    rw [hx]
    exact List.getElem_mem hi
  have hlen : 1 ≤ hrts.enum.length := by
    rw [List.enum_length]
    exact List.length_pos.mpr hne
  obtain ⟨h1, h2⟩ := revenueFold_totals rr hr hrts.enum (0, 0, 0, []) henum
  have hrev : (9/10 : ℚ) ≤ (hrts.enum.foldl (revenueStep rr) (0, 0, 0, [])).1 := by
    have : (9/10 : ℚ) * 1 ≤ 9/10 * hrts.enum.length := by
      have : (1 : ℚ) ≤ (hrts.enum.length : ℚ) := by exact_mod_cast hlen
      nlinarith
    simpa using le_trans (by linarith) h1
  have hrooms : 0 < (hrts.enum.foldl (revenueStep rr) (0, 0, 0, [])).2.1 := by
    have := h2
    omega
  refine ⟨?_, ?_, ?_, ?_⟩
  · show 9/10 ≤ round2 (hrts.enum.foldl (revenueStep rr) (0, 0, 0, [])).1
    have h90 : (9/10 : ℚ) = round2 (9/10) := by norm_num [round2, jsRound]
    have := round2_mono hrev
    rw [← h90] at this
    exact this
  · exact hrooms
  · show ((jsDiv _ ((hrts.enum.foldl (revenueStep rr) (0, 0, 0, [])).2.1 : ℚ)).map round4).isSome
    have hne0 : ((hrts.enum.foldl (revenueStep rr) (0, 0, 0, [])).2.1 : ℚ) ≠ 0 := by
      exact_mod_cast Nat.pos_iff_ne_zero.mp hrooms
    simp [jsDiv, hne0]
  · show ∀ s ∈ (hrts.enum.foldl (revenueStep rr) (0, 0, 0, [])).2.2.2, _
    exact revenueFold_ids rr hrts hrts.enum (0, 0, 0, []) henum' (by simp)

/-- Every room type of the mock data has at least 2 rooms and a base
price of at least 1. -/
theorem roomTypes_bounds :
    ∀ rt ∈ roomTypes, 2 ≤ rt.inventory_count ∧ 1 ≤ rt.base_price := by
  intro rt h
  simp only [roomTypes, List.mem_cons, List.not_mem_nil, or_false] at h
  rcases h with rfl | rfl | rfl | rfl | rfl | rfl | rfl <;>
    exact ⟨by norm_num, by norm_num⟩

/-- Every bucket of `generateRevenueAnalytics` has revenue at least 0.9,
a positive room count, a defined blended occupancy rate, and a breakdown
whose room types all resolve in the hotel's room-type list. -/
theorem generateRevenueAnalytics_shape (hotelId : ℕ) (startDate : ℤ)
    (days : ℕ) (groupBy : GroupBy) (r : ℕ → ℕ → DayRtRand)
    (hr : ∀ i j, 0 ≤ (r i j).occR ∧ 0 ≤ (r i j).priceR)
    {item : RevenueAnalyticsItem}
    (hitem : item ∈ (generateRevenueAnalytics hotelId startDate days groupBy r).analytics) :
    9/10 ≤ item.total_revenue ∧ 0 < item.total_rooms ∧
    item.occupancy_rate.isSome ∧
    ∀ s ∈ item.room_types,
      (((roomTypes.filter (fun x => x.hotel_id = hotelId)).find?
        (fun rt => rt.id = s.room_type_id)).isSome) := by
  unfold generateRevenueAnalytics at hitem
  dsimp only at hitem
  by_cases hempty : (roomTypes.filter (fun x => x.hotel_id = hotelId)).isEmpty
  · rw [if_pos hempty] at hitem
    simp [RevenueAnalytics.analytics] at hitem
  · rw [if_neg hempty] at hitem
    simp only [RevenueAnalytics.analytics] at hitem
    have hloop := List.mem_mergeSort.mp hitem
    obtain ⟨i, g, rfl⟩ := mem_revenueAnalyticsLoop hloop
    have hne : roomTypes.filter (fun x => x.hotel_id = hotelId) ≠ [] := by
      intro hcontra
      exact hempty (by simp [hcontra])
    have hb : ∀ rt ∈ roomTypes.filter (fun x => x.hotel_id = hotelId),
        2 ≤ rt.inventory_count ∧ 1 ≤ rt.base_price := fun rt hrt =>
      roomTypes_bounds rt (List.mem_filter.mp hrt).1
    obtain ⟨s1, s2, s3, s4⟩ :=
      revenueAnalyticsItem_shape _ g (r i) hne hb (fun j => hr i j)
    refine ⟨s1, s2, s3, fun s hs => ?_⟩
    obtain ⟨rt, hrtmem, hid⟩ := s4 s hs
    exact List.find?_isSome.mpr ⟨rt, hrtmem, by simp [hid]⟩

theorem contributionFold_isSome (hrts : List RoomType) :
    ∀ (l : List RoomTypeDayStats)
      (acc : Option (ℚ × ℚ × List ContributionRoomTypeStats)),
      acc.isSome →
      (∀ s ∈ l, ((hrts.find? (fun x => x.id = s.room_type_id)).isSome)) →
      (l.foldl (contributionStep hrts) acc).isSome := by
  intro l
  induction l with
  | nil => intro acc h _; exact h
  | cons s ss ih =>
      intro acc hacc hall
      refine ih (contributionStep hrts acc s)
        ?_ (fun q hq => hall q (by simp [hq]))
      obtain ⟨a, rfl⟩ := Option.isSome_iff_exists.mp hacc
      obtain ⟨rt, hrt⟩ := Option.isSome_iff_exists.mp (hall s (by simp))
      unfold contributionStep
      simp [hrt]

/-- When every breakdown entry's room type resolves and the bucket
revenue is nonzero, `contributionItem` succeeds and its blended
contribution margin is defined. -/
theorem contributionItem_isSome (hrts : List RoomType)
    (item : RevenueAnalyticsItem)
    (h : ∀ s ∈ item.room_types, ((hrts.find? (fun x => x.id = s.room_type_id)).isSome))
    (hrev : item.total_revenue ≠ 0) :
    ∃ ci, contributionItem hrts item = some ci ∧ ci.contribution_margin.isSome := by
  unfold contributionItem
  have hs := contributionFold_isSome hrts item.room_types
    (some ((0 : ℚ), (0 : ℚ), ([] : List ContributionRoomTypeStats)))
    (by simp) h
  obtain ⟨a, ha⟩ := Option.isSome_iff_exists.mp hs
  rw [ha]
  refine ⟨_, rfl, ?_⟩
  dsimp only
  simp [jsDiv, hrev]

/-! ## Finiteness of the derived fields -/

theorem finalPrice_ge_cent (rt : RoomType) (date : ℤ) (d : ℚ) (o : Bool)
    (a e : ℚ) (hbp : 1/100 ≤ rt.base_price) (h0 : 0 ≤ d) (h1 : d ≤ 1)
    (ha1 : -(1/10) ≤ a) :
    1/100 ≤ (priceDay rt date d o a e).final_price := by
  have hpm := priceMultiplier_bounds h0 h1
  have hsp : 1/100 ≤ round2 (rt.base_price * priceMultiplier d) := by
    apply round2_ge_cent
    nlinarith [hpm.1]
  cases o
  · simpa only [priceDay, Bool.false_eq_true, if_false] using hsp
  · simp only [priceDay, if_true]
    apply round2_ge_cent
    have h9 : (9/10 : ℚ) ≤ 1 + a := by linarith
    nlinarith [hsp]

/-- C7 (amended): given valid inputs whose `base_price` is at least one
cent, no field is non-finite: `final_price` is strictly positive, so
`contribution_margin_percentage` is a defined (finite) number, and every
analytics bucket has a defined blended occupancy rate and a defined
blended contribution margin. -/
theorem fields_finite_of_cent_base (rt : RoomType) (date : ℤ) (d : ℚ)
    (o : Bool) (a e : ℚ) (hbp : 1/100 ≤ rt.base_price) (h0 : 0 ≤ d)
    (h1 : d ≤ 1) (ha1 : -(1/10) ≤ a)
    (hotelId : ℕ) (startDate : ℤ) (days : ℕ) (groupBy : GroupBy)
    (r : ℕ → ℕ → DayRtRand)
    (hr : ∀ i j, 0 ≤ (r i j).occR ∧ 0 ≤ (r i j).priceR) :
    0 < (priceDay rt date d o a e).final_price ∧
    (priceDay rt date d o a e).contribution_margin_percentage.isSome ∧
    ∀ item ∈ (generateRevenueAnalytics hotelId startDate days groupBy r).analytics,
      item.occupancy_rate.isSome ∧
      ∃ ci, contributionItem (roomTypes.filter (fun x => x.hotel_id = hotelId))
          item = some ci ∧ ci.contribution_margin.isSome := by
  have hfp := finalPrice_ge_cent rt date d o a e hbp h0 h1 ha1
  have hpos : 0 < (priceDay rt date d o a e).final_price := by linarith
  have hfp0 : (priceDay rt date d o a e).final_price ≠ 0 := ne_of_gt hpos
  refine ⟨hpos, ?_, ?_⟩
  · simp only [priceDay] at hfp0 ⊢
    simp [jsDiv, hfp0]
  · intro item hitem
    obtain ⟨s1, s2, s3, s4⟩ :=
      generateRevenueAnalytics_shape hotelId startDate days groupBy r hr hitem
    exact ⟨s3, contributionItem_isSome _ item s4 (by linarith)⟩

/-- Witness for `fields_finite_of_cent_base` at the first room type,
demand `1/2`, no override, hotel 1, one day. -/
theorem fields_finite_of_cent_base_witness :
    0 < (priceDay standardRoom 0 (1/2) false 0 1).final_price ∧
    (priceDay standardRoom 0 (1/2) false 0 1).contribution_margin_percentage.isSome ∧
    ∀ item ∈ (generateRevenueAnalytics 1 0 1 .day (fun _ _ => ⟨0, 0⟩)).analytics,
      item.occupancy_rate.isSome ∧
      ∃ ci, contributionItem (roomTypes.filter (fun x => x.hotel_id = 1))
          item = some ci ∧ ci.contribution_margin.isSome :=
  fields_finite_of_cent_base standardRoom 0 (1/2) false 0 1
    (by norm_num [standardRoom]) (by norm_num) (by norm_num) (by norm_num)
    1 0 1 .day (fun _ _ => ⟨0, 0⟩)
    (fun i j => ⟨by norm_num, by norm_num⟩)

/-- A room type with `base_price = 0` (a valid input per the claim). -/
def freeRoom : RoomType :=
  { id := 1, hotel_id := 1, name := "Standard Room", base_price := 0,
    variable_cost := 45, inventory_count := 40, max_occupancy := 2 }

/-- Counterexample to C7 as stated: with the valid input
`base_price = 0` the final price is `0`, so
`contribution_margin_percentage = contribution_margin / final_price * 100`
divides by zero and is non-finite (`none`). -/
theorem zero_base_price_nonfinite_percentage :
    (priceDay freeRoom 0 (1/2) false 0 1).final_price = 0 ∧
    (priceDay freeRoom 0 (1/2) false 0 1).contribution_margin_percentage = none := by
  constructor
  · norm_num [priceDay, freeRoom, priceMultiplier, round2, jsRound]
  · norm_num [priceDay, freeRoom, priceMultiplier, round2, jsRound, jsDiv]

/-- C8 (amended): every bucket produced by the revenue analytics has
strictly positive total revenue, so the zero-revenue division condition
never arises in the pipeline; the blended contribution-margin division
itself is unguarded, and on a hypothetical zero-revenue bucket it yields
a non-finite margin rather than zero. -/
theorem bucket_revenue_positive (hotelId : ℕ) (startDate : ℤ) (days : ℕ)
    (groupBy : GroupBy) (r : ℕ → ℕ → DayRtRand)
    (hr : ∀ i j, 0 ≤ (r i j).occR ∧ 0 ≤ (r i j).priceR)
    (item : RevenueAnalyticsItem)
    (hitem : item ∈ (generateRevenueAnalytics hotelId startDate days groupBy r).analytics) :
    0 < item.total_revenue :=
  lt_of_lt_of_le (by norm_num)
    (generateRevenueAnalytics_shape hotelId startDate days groupBy r hr hitem).1

/-- Witness for `bucket_revenue_positive`: hotel 1, one day, all random
draws `0`. -/
theorem bucket_revenue_positive_witness :
    0 < (revenueAnalyticsItem (roomTypes.filter (fun x => x.hotel_id = 1))
      (0 + ((0 : ℕ) : ℤ)) (fun _ => ⟨0, 0⟩)).total_revenue :=
  bucket_revenue_positive 1 0 1 .day (fun _ _ => ⟨0, 0⟩)
    (fun i j => ⟨by norm_num, by norm_num⟩) _
    (by
      simp only [generateRevenueAnalytics, revenueAnalyticsLoop,
        RevenueAnalytics.analytics, roomTypes]
      norm_num [List.filter, List.range_succ, List.mergeSort_singleton]
      simp [revenueLoopStep, List.find?])

/-- A bucket with zero revenue and a well-formed breakdown (the state C8
says is recovered as a zero margin). -/
def zeroRevenueItem : RevenueAnalyticsItem :=
  { date := 0, total_revenue := 0, total_rooms := 40, total_occupied := 0,
    occupancy_rate := some 0,
    room_types := [{ room_type_id := 1,
                     room_type_name := "Standard Room",
                     revenue := 0, rooms := 40, occupied := 0,
                     occupancy_rate := 0 }] }

/-- Counterexample to C8 as stated: on a bucket whose `total_revenue` is
`0` the contribution-margin division is not recovered as zero — it is
performed unguarded and produces a non-finite value (`none`), not `0`. -/
theorem zero_revenue_bucket_margin_not_zero :
    (contributionItem (roomTypes.filter (fun x => x.hotel_id = 1))
        zeroRevenueItem).map (fun ci => ci.contribution_margin) = some none ∧
    some (none : Option ℚ) ≠ some (some (0 : ℚ)) := by
  constructor
  · norm_num [contributionItem, contributionStep, zeroRevenueItem, roomTypes,
      jsDiv, List.filter, List.find?]
  · simp

/-! ## Behavior on an empty room-type mapping -/

/-- C9 (amended): when no room type matches, the two entry points
diverge — `getPricingRecommendations` fails with
`"No room types found for the specified criteria"`, while
`generateRevenueAnalytics` does not fail: it returns the bare
`{ analytics: [] }` early result. -/
theorem empty_mapping_behavior (hotelId : ℕ) (startDate : ℤ) (days : ℕ)
    (groupBy : GroupBy) (rand : ℕ → ℕ → DayRand) (r : ℕ → ℕ → DayRtRand)
    (h : roomTypes.filter (fun rt => rt.hotel_id = hotelId) = []) :
    generateRevenueAnalytics hotelId startDate days groupBy r = .emptyResult ∧
    getPricingRecommendations hotelId startDate days none rand =
      .error "No room types found for the specified criteria" := by
  constructor
  · unfold generateRevenueAnalytics
    simp [h]
  · unfold getPricingRecommendations
    simp [h]

/-- Witness for `empty_mapping_behavior` at the unknown hotel id 99. -/
theorem empty_mapping_behavior_witness :
    generateRevenueAnalytics 99 0 30 .week (fun _ _ => ⟨0, 0⟩) = .emptyResult ∧
    getPricingRecommendations 99 0 30 none (fun _ _ => ⟨0, 0, 0, 0⟩) =
      .error "No room types found for the specified criteria" :=
  empty_mapping_behavior 99 0 30 .week (fun _ _ => ⟨0, 0, 0, 0⟩)
    (fun _ _ => ⟨0, 0⟩) (by simp [roomTypes, List.filter])

/-- Counterexample to C9 as stated: `generateRevenueAnalytics` over an
empty room-type mapping (hotel id 99 matches no room type) does not fail
with an error — it returns the empty result, whose `analytics` list is
empty. -/
theorem empty_hotel_returns_empty_result :
    generateRevenueAnalytics 99 0 30 .day (fun _ _ => ⟨0, 0⟩) = .emptyResult ∧
    RevenueAnalytics.emptyResult.analytics = [] := by
  constructor
  · unfold generateRevenueAnalytics
    simp [roomTypes, List.filter]
  · rfl

/-! ## The day count of the pricing schedule -/

/-- C4 evaluated at a failing input: `getPricingRecommendations` called
with `days = 10` echoes `days = 10` in its response yet produces 30
`PricedDay` records (the hard-coded loop bound of
`generatePricingData`); the dates themselves are consecutive from the
start date. -/
theorem pricing_schedule_always_30_days :
    (getPricingRecommendations 1 0 10 (some 1) (fun _ _ => ⟨0, 0, 0, 0⟩)).map
      (fun res => (res.days, res.recommendations.map (fun rec => rec.prices.length))) =
      .ok (10, [30]) ∧
    (10 : ℕ) ≠ 30 ∧
    (generatePricingData 1 0 (fun _ => ⟨0, 0, 0, 0⟩)).map (fun pd => pd.date) =
      (List.range 30).map (fun i => (i : ℤ)) := by
  refine ⟨?_, by decide, ?_⟩
  · simp [getPricingRecommendations, generatePricingData, roomTypes,
      List.filter, List.find?, Except.map]
  · unfold generatePricingData
    rw [show roomTypes.find? (fun rt => rt.id = 1) = some standardRoom from rfl,
      List.map_map]
    refine List.map_congr_left ?_
    intro i _
    simp [priceDay]

/-! ## The aggregation bug of the week/month buckets -/

/-- C5 evaluated at a failing input: two days (Monday 1970-01-05 and the
following Tuesday) fall in the same week bucket, both with identical
randomness producing a per-day total revenue of 5567.4 for hotel 2, but
the bucket reports 5567.4 — the first day's total only — because the
"Update existing entry" branch of the loop skips the day instead of
adding it; the claim's sum over all days of the bucket would be
11134.8. -/
theorem week_bucket_drops_subsequent_days :
    (generateRevenueAnalytics 2 4 2 .week (fun _ _ => ⟨0, 0⟩)).analytics.map
      (fun a => (a.date, a.total_revenue)) = [(4, 55674/10)] ∧
    mondayOf 4 = 4 ∧ mondayOf 5 = 4 ∧
    (55674/10 : ℚ) ≠ 55674/10 + 55674/10 := by
  refine ⟨?_, by norm_num [mondayOf, getDay], by norm_num [mondayOf, getDay],
    by norm_num⟩
  norm_num [generateRevenueAnalytics, roomTypes, List.filter,
    RevenueAnalytics.analytics, revenueAnalyticsLoop, List.range_succ]
  norm_num [revenueLoopStep, mondayOf, getDay, List.find?,
    revenueAnalyticsItem, revenueStep, List.enum, List.enumFrom,
    round2, round4, jsRound, jsDiv, List.mergeSort_singleton]

end Hotel
